import Mathlib

/-!
Verification of the Local-Cocoa indexing/search core against its source.

Shallow embedding conventions:
* Python functions become Lean functions; external effects (VLM calls, HTTP
  probes, the relational and vector stores) are passed in explicitly as
  oracle arguments or state records.
* Python `int` is `Int` (or `Nat` where the source guarantees
  non-negativity), `str` is `String`, `None`-able values are `Option`.
* Python truthiness of a string is `s ≠ ""`, of a list is `l ≠ []`.
-/

namespace LocalCocoa

/-! ## Decimal rendering of Python integers

`pyIntStr n` models the text produced by a Python f-string interpolation of a
non-negative `int` (used in chunk ids such as `f"{id}::deep::page_{n}"`).
A fuel-indexed helper keeps the recursion structural so that concrete values
reduce by `rfl`/`decide`. -/

def digitsAux : Nat → Nat → List Nat
  | 0, n => [n % 10]
  | fuel + 1, n => if n < 10 then [n] else digitsAux fuel (n / 10) ++ [n % 10]

/-- The base-10 digits of `n`, most significant first. -/
def pyDigits (n : Nat) : List Nat := digitsAux n n

def digitToChar (d : Nat) : Char := Char.ofNat (48 + d)

/-- Decimal rendering of a non-negative Python integer. -/
def pyIntStr (n : Nat) : String := String.mk ((pyDigits n).map digitToChar)

/-- Value of a digit list, most significant first. -/
def digitsVal (l : List Nat) : Nat := l.foldl (fun a d => 10 * a + d) 0

/-- Python `str.strip()`: drop leading and trailing whitespace.  Implemented
over the character list so that concrete values reduce in the kernel. -/
def pyStrip (s : String) : String :=
  String.mk
    (((s.data.dropWhile Char.isWhitespace).reverse.dropWhile
        Char.isWhitespace).reverse)

/-! ## File records

A `FileRecord` carries the fields of the Python file record that the deep
processor reads or writes.  `preview_image` models the Python truthiness of
the preview-image bytes (present and non-empty); `page_count` is the optional
page count; the `meta_*` fields are the entries of the free-form `metadata`
map written by `DeepProcessor.process`. -/

structure FileRecord where
  id : String
  name : String := ""
  kind : String
  extension : String
  fast_stage : Int := 0
  deep_stage : Int := 0
  path_exists : Bool := true
  preview_image : Bool := false
  page_count : Option Int := none
  deep_text_at : Option Nat := none
  deep_embed_at : Option Nat := none
  meta_vector_chunks_deep : Option (List String) := none
  meta_chunk_count_deep : Option Nat := none
  meta_deep_processed : Option Bool := none
deriving Repr, DecidableEq

/-! ## Chunk snapshots

`ChunkSnapshot` carries the fields set when `DeepProcessor` constructs deep
chunks; `meta_page_number` / `meta_page_numbers` / `meta_source` are the
entries of the chunk's free-form `metadata` map. -/

structure ChunkSnapshot where
  chunk_id : String
  file_id : String
  ordinal : Int
  text : String
  snippet : String
  token_count : Nat
  char_count : Nat
  section_path : Option String
  meta_page_number : Option Nat
  meta_page_numbers : Option (List Nat)
  meta_source : Option String
  version : String
deriving Repr, DecidableEq

namespace DeepProcessor

/-- `DeepProcessor._should_process_deep` (src/services/indexer/stages/deep.py,
lines 220-247), transliterated: images → true; PDF documents with a preview
image or positive page count → true; presentations → true; `txt`/`md`/`csv`
documents → false; audio/video → false; everything else → false. -/
def should_process_deep (file_record : FileRecord) : Bool :=
  if file_record.kind = "image" then
    true
  else if file_record.kind = "document" ∧ file_record.extension = "pdf" then
    if file_record.preview_image then
      true
    else if (file_record.page_count.getD 0) > 0 then
      true
    else
      false
  else if file_record.kind = "presentation" then
    true
  else
    false

/-- The per-page chunk built inside `DeepProcessor._process_pdf`
(src/services/indexer/stages/deep.py, lines 326-343). -/
def mkPdfPageChunk (record_id : String) (page_num : Nat) (cleaned : String) :
    ChunkSnapshot where
  chunk_id := record_id ++ "::deep::page_" ++ pyIntStr page_num
  file_id := record_id
  ordinal := (page_num : Int) - 1
  text := cleaned
  snippet := cleaned.take 400
  token_count := max (cleaned.length / 4) 1
  char_count := cleaned.length
  section_path := some ("page_" ++ pyIntStr page_num)
  meta_page_number := some page_num
  meta_page_numbers := some [page_num]
  meta_source := some "vlm"
  version := "deep"

/-- `DeepProcessor._process_pdf` (deep.py, lines 272-349).

The re-parse and the per-page VLM calls are external, so they enter as
arguments: `parse_ok = false` models `content_router.parse` raising (caught
at lines 281-283); `pages` is the list of page numbers `N` for which the
parse produced a `page_N` attachment (Python dict keys, hence no duplicates
in any run of the real code); `vlm p` is the page-`p` VLM output after the
`strip`/code-fence cleaning of lines 318-320, with `none` modelling the
per-page exception caught at lines 345-346.

The code builds `page_results` and `chunks` in one pass over the pages
sorted by page number; the two `filterMap`s below are that pass split per
output. -/
def process_pdf (record : FileRecord) (parse_ok : Bool) (pages : List Nat)
    (vlm : Nat → Option String) : Option String × List ChunkSnapshot :=
  if ¬ parse_ok then (none, [])
  else if pages.isEmpty then (none, [])
  else
    let sorted_pages := List.insertionSort (· ≤ ·) pages
    let page_results := sorted_pages.filterMap fun p =>
      match vlm p with
      | none => none
      | some cleaned => if cleaned ≠ "" then some cleaned else none
    let chunks := sorted_pages.filterMap fun p =>
      match vlm p with
      | none => none
      | some cleaned =>
          if cleaned ≠ "" then some (mkPdfPageChunk record.id p cleaned) else none
    (if page_results.isEmpty then none
     else some (String.intercalate "\n\n" page_results),
     chunks)

/-- `DeepProcessor._build_deep_chunks` (deep.py, lines 366-386): a single
full-document chunk, or nothing when the text is empty or whitespace. -/
def build_deep_chunks (record : FileRecord) (text : String) :
    List ChunkSnapshot :=
  if text = "" ∨ pyStrip text = "" then []
  else
    [{ chunk_id := record.id ++ "::deep::full"
       file_id := record.id
       ordinal := 0
       text := text
       snippet := text.take 400
       token_count := max (text.length / 4) 1
       char_count := text.length
       section_path := none
       meta_page_number := none
       meta_page_numbers := none
       meta_source := some "vlm"
       version := "deep" }]

/-- Oracle for the external effects of one `DeepProcessor.process` run:
`image_text` / `presentation_text` are the results of `_process_image` and
`_process_presentation` (which catch their own VLM exceptions and return
`None`); the `pdf_*` / `vlm` fields feed `process_pdf`;
`vector_store_fails = true` models `vector_store.upsert`/`flush` raising
(caught at deep.py lines 188-192); `now` is the timestamp read from the
clock. -/
structure DeepOracle where
  now : Nat := 0
  image_text : Option String := none
  presentation_text : Option String := none
  pdf_parse_ok : Bool := true
  pdf_pages : List Nat := []
  vlm : Nat → Option String := fun _ => none
  vector_store_fails : Bool := false

/-- The slice of the relational store visible to one deep-processing run:
the processed file's record and the live chunks stored under
`(file_id, version="deep")`. -/
structure Store where
  file : Option FileRecord
  deep_chunks : List ChunkSnapshot := []
deriving Repr, DecidableEq

/-- Modelled from the spec: `IndexStorage.replace_chunks(file_id, chunks,
version)` — not part of the source slice — "atomically deletes all existing
chunks for (file_id, version) and inserts the new set". -/
def replace_chunks (st : Store) (chunks : List ChunkSnapshot) : Store :=
  { st with deep_chunks := chunks }

structure ProcessResult where
  success : Bool
  store : Store
  /-- Doc ids of vector documents durably upserted (empty when the vector
  store raised; the vector values themselves are elided). -/
  upserted_doc_ids : List String
deriving Repr, DecidableEq

/-- The kind/extension dispatch of `DeepProcessor.process`
(deep.py, lines 117-125). -/
def extract_deep (file_record : FileRecord) (o : DeepOracle) :
    Option String × List ChunkSnapshot :=
  if file_record.kind = "image" then (o.image_text, [])
  else if file_record.kind = "document" ∧ file_record.extension = "pdf" then
    process_pdf file_record o.pdf_parse_ok o.pdf_pages o.vlm
  else if file_record.kind = "presentation" then (o.presentation_text, [])
  else (none, [])

/-- Python falsiness of the optional `deep_text` (`not deep_text`). -/
def strFalsy : Option String → Bool
  | none => true
  | some s => s = ""

/-- `DeepProcessor.process` (deep.py, lines 69-218), one run on one file.

The guards, the dispatch, the empty-result terminal, chunk storage, the
vector-store upsert (with its caught exception), the metadata summary and
the stage update follow the source line by line.  `_embed_chunks` filters
out chunks whose stripped text is empty and the zip at line 162 truncates to
the number of returned vectors, so `documents` is the prefix of the chunk
list of that length. -/
def process (st : Store) (o : DeepOracle) : ProcessResult :=
  match st.file with
  | none => ⟨false, st, []⟩
  | some file_record =>
    if file_record.fast_stage < 2 then ⟨false, st, []⟩
    else if file_record.deep_stage ≥ 2 then ⟨true, st, []⟩
    else if file_record.deep_stage = -2 then ⟨true, st, []⟩
    else if ¬ should_process_deep file_record then
      ⟨true, { st with file := some { file_record with deep_stage := -2 } }, []⟩
    else if ¬ file_record.path_exists then
      ⟨false, { st with file := some { file_record with deep_stage := -1 } }, []⟩
    else
      let res := extract_deep file_record o
      let deep_text := res.1
      let deep_chunks0 := res.2
      if strFalsy deep_text ∧ deep_chunks0.isEmpty then
        ⟨true,
         { st with file := some { file_record with
             deep_stage := 2, deep_text_at := some o.now,
             deep_embed_at := some o.now } },
         []⟩
      else
        let deep_chunks :=
          if ¬ strFalsy deep_text ∧ deep_chunks0.isEmpty then
            build_deep_chunks file_record (deep_text.getD "")
          else deep_chunks0
        let st1 := replace_chunks st deep_chunks
        if deep_chunks.isEmpty then
          ⟨true,
           { st1 with file := some { file_record with
               deep_stage := 2, deep_text_at := some o.now,
               deep_embed_at := some o.now } },
           []⟩
        else
          let texts := deep_chunks.filter fun c => ¬ pyStrip c.text = ""
          let documents := deep_chunks.take texts.length
          let doc_ids := documents.map (·.chunk_id)
          let upserted := if documents.isEmpty then []
            else if o.vector_store_fails then [] else doc_ids
          let updated := { file_record with
            meta_vector_chunks_deep := some doc_ids
            meta_chunk_count_deep := some deep_chunks.length
            meta_deep_processed := some true }
          ⟨true,
           { st1 with file := some { updated with
               deep_stage := 2, deep_text_at := some o.now,
               deep_embed_at := some o.now } },
           upserted⟩

/-- The per-page option used by `process_pdf`'s chunk pass: `none` for a
failed or empty page, the page chunk otherwise. -/
def pageChunkF (record : FileRecord) (vlm : Nat → Option String) (p : Nat) :
    Option ChunkSnapshot :=
  match vlm p with
  | none => none
  | some cleaned =>
      if cleaned ≠ "" then some (mkPdfPageChunk record.id p cleaned) else none

/-- Concrete run used to exercise C4: a 3-page PDF whose page 2 VLM call
raises. -/
def c4_file : FileRecord :=
  { id := "f1", kind := "document", extension := "pdf",
    fast_stage := 2, deep_stage := 0, page_count := some 3 }

def c4_store : Store := { file := some c4_file }

def c4_oracle : DeepOracle :=
  { now := 9, pdf_pages := [1, 2, 3],
    vlm := fun p => if p = 2 then none else some "ok" }

/-- Concrete run used to exercise C2: a 2-page PDF whose page 1 VLM call
raises, leaving a gap in the ordinals. -/
def c2x_file : FileRecord :=
  { id := "f2", kind := "document", extension := "pdf",
    fast_stage := 2, deep_stage := 0, page_count := some 2 }

def c2x_store : Store := { file := some c2x_file }

def c2x_oracle : DeepOracle :=
  { now := 3, pdf_pages := [1, 2],
    vlm := fun p => if p = 2 then some "b" else none }

/-- Concrete inputs for the C2 amended witness: a 2-page PDF, both pages
described. -/
def c2w_record : FileRecord :=
  { id := "f3", kind := "document", extension := "pdf" }

def c2w_vlm : Nat → Option String := fun _ => some "pg"

/-- Concrete run used to exercise C6: an eligible PDF whose deep parse yields
no page images, while a stale deep chunk is already stored. -/
def c6x_file : FileRecord :=
  { id := "f4", kind := "document", extension := "pdf",
    fast_stage := 2, deep_stage := 0, page_count := some 1 }

def c6x_stale_chunk : ChunkSnapshot :=
  { chunk_id := "f4::deep::page_1", file_id := "f4",
    ordinal := 0, text := "old", snippet := "old", token_count := 1,
    char_count := 3, section_path := some "page_1",
    meta_page_number := some 1, meta_page_numbers := some [1],
    meta_source := some "vlm", version := "deep" }

def c6x_store : Store :=
  { file := some c6x_file, deep_chunks := [c6x_stale_chunk] }

def c6x_oracle : DeepOracle := { now := 5 }

/-- Concrete inputs for the C6 amended witness: same empty extraction, but no
previously stored deep chunks. -/
def c6w_file : FileRecord :=
  { id := "f5", kind := "document", extension := "pdf",
    fast_stage := 2, deep_stage := 0, page_count := some 1 }

def c6w_store : Store := { file := some c6w_file }

def c6w_oracle : DeepOracle := { now := 4 }

/-- Concrete run used to exercise C10: a 1-page PDF processed while the
vector store raises on upsert. -/
def c10w_file : FileRecord :=
  { id := "f6", kind := "document", extension := "pdf",
    fast_stage := 2, deep_stage := 0, page_count := some 1 }

def c10w_store : Store := { file := some c10w_file }

def c10w_oracle : DeepOracle :=
  { now := 11, pdf_pages := [1], vlm := fun _ => some "page text",
    vector_store_fails := true }

end DeepProcessor

namespace QaMixin

/-! ## QA scope isolation (qa.py)

`QaMixin.stream_answer` (src/services/search/qa.py, lines 133-177) computes
the `target_file_ids` allowlist from the two filter mechanisms.  The
resolution of names to ids happens through storage lookups, so the embedding
takes the already-resolved id lists:

* `mentionF = none` when the query contains no `@mention`;
  `mentionF = some F` when it does, `F` being the concatenation of
  `find_files_by_name` results over all mentioned names (possibly empty);
* `folderG = none` when `payload.folder_ids` is absent or empty;
  `folderG = some G` when present, `G` being the concatenation of
  `get_files_in_folder` results (possibly empty).

Python's `list(set(a) & set(b))` is modelled as `a.filter (b.contains ·)`,
which has the same membership. -/

def resolve_target_file_ids (mentionF folderG : Option (List String)) :
    Option (List String) :=
  let target := mentionF
  match folderG with
  | none => target
  | some folder_file_ids =>
    if ¬ folder_file_ids.isEmpty then
      match target with
      | some f =>
          if ¬ f.isEmpty then
            some (f.filter (fun x => folder_file_ids.contains x))
          else some folder_file_ids
      | none => some folder_file_ids
    else target

/-- Modelled from the spec: the retrieval pipelines
(src/services/search/pipelines/, outside the source slice) restrict keyword
and vector search "to the allowlist if any", so a hit is returned only when
its `file_id` passes the resolved allowlist; `none` means no restriction. -/
def hit_permitted (target : Option (List String)) (file_id : String) : Bool :=
  match target with
  | none => true
  | some allow => allow.contains file_id

/-- The spec's effective allowlist (spec.md §4.7.1): the intersection when
both sources are present, the present one otherwise, with an empty allowlist
from a non-empty filter specification meaning "no results". -/
def spec_allowlist (mentionF folderG : Option (List String)) :
    Option (List String) :=
  match mentionF, folderG with
  | none, none => none
  | some f, none => some f
  | none, some g => some g
  | some f, some g => some (f.filter (fun x => g.contains x))

/-- Whether the spec's effective allowlist admits a hit with this file id. -/
def spec_permits (mentionF folderG : Option (List String)) (file_id : String) :
    Bool :=
  match spec_allowlist mentionF folderG with
  | none => true
  | some allow => allow.contains file_id

/-- The amended allowlist combination actually implemented: an empty folder
expansion is ignored, and an empty `@mention` resolution is dropped in favour
of a non-empty folder expansion instead of intersecting to the empty set. -/
def amended_allowlist (mentionF folderG : Option (List String)) :
    Option (List String) :=
  match mentionF, folderG with
  | none, none => none
  | some f, none => some f
  | none, some g => if g.isEmpty then none else some g
  | some f, some g =>
      if g.isEmpty then some f
      else if f.isEmpty then some g
      else some (f.filter (fun x => g.contains x))

end QaMixin

namespace PdfDeepParser

/-! ## PDF deep parser page-text assembly (pdf_deep.py) -/

/-- Python `repr` of a string, for strings without quotes, backslashes or
non-printable characters: `'s'`. -/
def pyStrRepr (s : String) : String := "'" ++ s ++ "'"

/-- Python rendering of a list of strings inside an f-string, e.g.
`['a', 'b']`. -/
def pyListRepr (l : List String) : String :=
  "[" ++ String.intercalate ", " (l.map pyStrRepr) ++ "]"

/-- Python rendering of an `(int, str)` tuple inside an f-string, e.g.
`(1, 'a')`. -/
def pyPairRepr (i : Nat) (s : String) : String :=
  "(" ++ pyIntStr i ++ ", " ++ pyStrRepr s ++ ")"

/-- The `text` field assembled by `PdfDeepParser.parse`
(src/services/parser/pdf_deep.py, line 181):

`"".join([f"--PAGE_{index}--\x7bn{page_texts}" for index in enumerate(page_texts, start=1)])`

(with `\x7bn` standing for the newline escape).  Each `index` is the whole
`(i, text)` tuple and `{page_texts}` interpolates the entire list, so every
element renders as `--PAGE_(i, 'text')--` followed by the list display.
The per-page texts (OCR plus optional VLM caption) are external inputs. -/
def page_text_final (page_texts : List String) : String :=
  String.join (page_texts.enum.map
    (fun iv => "--PAGE_" ++ pyPairRepr (iv.1 + 1) iv.2 ++ "--\n" ++
      pyListRepr page_texts))

/-- The intended semantics per the spec: "concatenate pages with `--PAGE_N--`
headers separated by `\n\n`", `N` being the 1-based page number. -/
def intended_page_text (page_texts : List String) : String :=
  String.intercalate "\n\n" (page_texts.enum.map
    (fun iv => "--PAGE_" ++ pyIntStr (iv.1 + 1) ++ "--\n" ++ iv.2))

end PdfDeepParser

namespace ContentRouter

/-! ## Content router (content.py) -/

/-- The parser output; the claims only constrain its `text` field. -/
structure ParsedContent where
  text : String
deriving Repr, DecidableEq

/-- Modelled from the spec: a parser of the router's fixed ordered list is a
"capability interface `{extensions, parse(path, mode)}`"; `output` is the
result its `parse` would produce on the routed path. -/
structure ParserSpec where
  extensions : List String
  output : ParsedContent
deriving Repr, DecidableEq

/-- Modelled from the spec: `select_parser` (services/parser package, outside
the source slice) "iterates a fixed, ordered list and delegates to the first
match"; a parser matches when the path's suffix is among its extensions. -/
def selectParser (parsers : List ParserSpec) (suffix : String) :
    Option ParserSpec :=
  parsers.find? (fun p => p.extensions.contains suffix)

/-- `ContentRouter.parse` (src/services/core/content.py, lines 31-69).

`suffix` is `path.suffix.lower()`; `indexing_mode` and `pdf_mode` are the
call argument and the `settings.pdf_mode` value; `pdf_text_out` /
`pdf_vision_out` / `general_out` are the outputs the text PDF parser, the
vision PDF parser and `GeneralParser` would produce on this path.  The
`except TypeError` re-calls (kwargs compatibility, lines 36-39, 43-46 and
66-69) re-invoke the same parser and are behaviour-neutral, so they are
elided. -/
def parse (suffix indexing_mode pdf_mode : String)
    (pdf_text_out pdf_vision_out : ParsedContent)
    (parsers : List ParserSpec) (general_out : ParsedContent) : ParsedContent :=
  if suffix = ".pdf" then
    if indexing_mode = "fine" ∨ indexing_mode = "deep" ∨ pdf_mode = "vision" then
      pdf_vision_out
    else
      let content := pdf_text_out
      if pyStrip content.text = "" then pdf_vision_out
      else content
  else
    match selectParser parsers suffix with
    | some parser => parser.output
    | none => general_out

end ContentRouter

namespace Health

/-! ## Service health checks (health.py) -/

/-- The `ServiceStatus` fields `check_service` populates. -/
structure ServiceStatus where
  name : String
  status : String
  details : Option String := none
  latency_ms : Option Nat := none
deriving Repr, DecidableEq

/-- Outcome of one `client.get(target)`: an HTTP response with a status
code, or a raised transport error. -/
inductive ProbeOutcome where
  | response (status_code : Nat)
  | transport_error (msg : String)
deriving Repr, DecidableEq

/-- Python `url.rstrip("/")`. -/
def rstripSlashes (u : String) : String := u.dropRightWhile (fun c => c = '/')

/-- The probe-and-classify body of `check_service`
(src/services/app/routers/health.py, lines 34-53): GET `<base>/health`
first; a 404 response raises and falls back to GET `<base>`; a transport
error from either GET reaches the outer `except` and is `offline` with the
error text; a response with status in `200..499` is `online`, any other
status is `offline` with `HTTP <code>`.  `probe` maps a target URL to the
outcome of `client.get` on it; the latency is the elapsed-clock difference
in milliseconds. -/
def probe_and_classify (name : String) (probe : String → ProbeOutcome)
    (base : String) (now store_time : Nat) : ServiceStatus :=
  match probe (base ++ "/health") with
  | .transport_error e => ⟨name, "offline", some e, none⟩
  | .response code =>
    if code = 404 then
      match probe base with
      | .transport_error e => ⟨name, "offline", some e, none⟩
      | .response code2 =>
          if 200 ≤ code2 ∧ code2 < 500 then
            ⟨name, "online", none, some ((store_time - now) * 1000)⟩
          else ⟨name, "offline", some ("HTTP " ++ pyIntStr code2), none⟩
    else
      if 200 ≤ code ∧ code < 500 then
        ⟨name, "online", none, some ((store_time - now) * 1000)⟩
      else ⟨name, "offline", some ("HTTP " ++ pyIntStr code), none⟩

/-- `check_service` (health.py, lines 21-57).

The module-level `_service_cache` dict is modelled as an association list
with the visible binding first (assignment is a cons; lookup takes the first
match).  `now` is the `time.perf_counter()` reading at entry and
`store_time` the later reading used both for the stored timestamp and the
latency (lines 48 and 56); clock readings are monotone, so `store_time ≥
now`.  Returns the status and the updated cache. -/
def check_service (name : String) (url : Option String) (use_cache : Bool)
    (cache : List (String × ServiceStatus × Nat)) (now store_time : Nat)
    (probe : String → ProbeOutcome) :
    ServiceStatus × List (String × ServiceStatus × Nat) :=
  match url with
  | none => (⟨name, "unknown", some "URL not configured", none⟩, cache)
  | some u =>
    let cache_key := name ++ ":" ++ u
    let fresh :=
      if use_cache then
        match cache.find? (fun e => e.1 = cache_key) with
        | some entry => if now - entry.2.2 < 10 then some entry.2.1 else none
        | none => none
      else none
    match fresh with
    | some cached_status => (cached_status, cache)
    | none =>
      let result := probe_and_classify name probe (rstripSlashes u) now store_time
      (result, (cache_key, result, store_time) :: cache)

end Health

namespace SettingsRouter

/-! ## Settings PATCH/GET (settings.py) -/

/-- The mutable configuration snapshot over the keys recognized by
`SettingsUpdate` (src/services/app/routers/settings.py, lines 11-24);
`get_settings` returns exactly these keys. -/
structure Settings where
  vision_max_pixels : Int
  video_max_pixels : Int
  embed_batch_size : Int
  embed_batch_delay_ms : Int
  vision_batch_delay_ms : Int
  search_result_limit : Int
  qa_context_limit : Int
  max_snippet_length : Int
  summary_max_tokens : Int
  pdf_one_chunk_per_page : Bool
  rag_chunk_size : Int
  rag_chunk_overlap : Int
  default_indexing_mode : String
deriving Repr, DecidableEq

/-- The PATCH payload: every recognized key optional (settings.py, lines
11-24). -/
structure SettingsUpdate where
  vision_max_pixels : Option Int := none
  video_max_pixels : Option Int := none
  embed_batch_size : Option Int := none
  embed_batch_delay_ms : Option Int := none
  vision_batch_delay_ms : Option Int := none
  search_result_limit : Option Int := none
  qa_context_limit : Option Int := none
  max_snippet_length : Option Int := none
  summary_max_tokens : Option Int := none
  pdf_one_chunk_per_page : Option Bool := none
  rag_chunk_size : Option Int := none
  rag_chunk_overlap : Option Int := none
  default_indexing_mode : Option String := none
deriving Repr, DecidableEq

/-- `update_settings` (settings.py, lines 46-75): each field present in the
payload overwrites the corresponding settings field; the sequential
`if update.x is not None: settings.x = update.x` statements act on distinct
fields, so they are the field-wise merge below. -/
def update_settings (s : Settings) (u : SettingsUpdate) : Settings where
  vision_max_pixels :=
    match u.vision_max_pixels with | some v => v | none => s.vision_max_pixels
  video_max_pixels :=
    match u.video_max_pixels with | some v => v | none => s.video_max_pixels
  embed_batch_size :=
    match u.embed_batch_size with | some v => v | none => s.embed_batch_size
  embed_batch_delay_ms :=
    match u.embed_batch_delay_ms with | some v => v | none => s.embed_batch_delay_ms
  vision_batch_delay_ms :=
    match u.vision_batch_delay_ms with | some v => v | none => s.vision_batch_delay_ms
  search_result_limit :=
    match u.search_result_limit with | some v => v | none => s.search_result_limit
  qa_context_limit :=
    match u.qa_context_limit with | some v => v | none => s.qa_context_limit
  max_snippet_length :=
    match u.max_snippet_length with | some v => v | none => s.max_snippet_length
  summary_max_tokens :=
    match u.summary_max_tokens with | some v => v | none => s.summary_max_tokens
  pdf_one_chunk_per_page :=
    match u.pdf_one_chunk_per_page with | some v => v | none => s.pdf_one_chunk_per_page
  rag_chunk_size :=
    match u.rag_chunk_size with | some v => v | none => s.rag_chunk_size
  rag_chunk_overlap :=
    match u.rag_chunk_overlap with | some v => v | none => s.rag_chunk_overlap
  default_indexing_mode :=
    match u.default_indexing_mode with | some v => v | none => s.default_indexing_mode

/-- `get_settings` (settings.py, lines 27-43): the returned mapping has one
entry per recognized key, read from the live settings object; it is the
snapshot itself. -/
def get_settings (s : Settings) : Settings := s

/-- Concrete settings snapshot used to exercise C9. -/
def c9w_settings : Settings :=
  { vision_max_pixels := 1000000, video_max_pixels := 2000000,
    embed_batch_size := 8, embed_batch_delay_ms := 0,
    vision_batch_delay_ms := 0, search_result_limit := 10,
    qa_context_limit := 6, max_snippet_length := 400,
    summary_max_tokens := 512, pdf_one_chunk_per_page := true,
    rag_chunk_size := 800, rag_chunk_overlap := 80,
    default_indexing_mode := "fast" }

/-- Concrete PATCH payload touching two keys, used to exercise C9. -/
def c9w_update : SettingsUpdate :=
  { embed_batch_size := some 2, default_indexing_mode := some "deep" }

end SettingsRouter

end LocalCocoa

open LocalCocoa LocalCocoa.DeepProcessor LocalCocoa.QaMixin LocalCocoa.PdfDeepParser LocalCocoa.ContentRouter LocalCocoa.Health LocalCocoa.SettingsRouter

/-! ## Arithmetic and string helper lemmas -/

theorem digitsVal_append_singleton (l : List Nat) (d : Nat) :
    digitsVal (l ++ [d]) = 10 * digitsVal l + d := by
  simp [digitsVal, List.foldl_append]

theorem digitsAux_val (fuel n : Nat) (h : n ≤ fuel) :
    digitsVal (digitsAux fuel n) = n := by
  induction fuel generalizing n with
  | zero =>
    have hn : n = 0 := Nat.le_zero.mp h
    subst hn
    simp [digitsAux, digitsVal]
  | succ fuel ih =>
    by_cases hlt : n < 10
    · simp [digitsAux, hlt, digitsVal]
    · have hpos : 0 < n := by omega
      have hdiv : n / 10 < n := Nat.div_lt_self hpos (by omega)
      have hdivle : n / 10 ≤ fuel := by omega
      simp only [digitsAux, hlt, if_false]
      rw [digitsVal_append_singleton, ih _ hdivle]
      exact Nat.div_add_mod n 10

theorem pyDigits_val (n : Nat) : digitsVal (pyDigits n) = n :=
  digitsAux_val n n (Nat.le_refl n)

theorem pyDigits_injective : Function.Injective pyDigits := by
  intro m n h
  have := congrArg digitsVal h
  rwa [pyDigits_val, pyDigits_val] at this

theorem digitsAux_lt (fuel n : Nat) (h : n ≤ fuel) :
    ∀ d ∈ digitsAux fuel n, d < 10 := by
  induction fuel generalizing n with
  | zero =>
    intro d hd
    simp [digitsAux] at hd
    omega
  | succ fuel ih =>
    intro d hd
    by_cases hlt : n < 10
    · simp [digitsAux, hlt] at hd
      omega
    · have hpos : 0 < n := by omega
      have hdiv : n / 10 < n := Nat.div_lt_self hpos (by omega)
      have hdivle : n / 10 ≤ fuel := by omega
      simp only [digitsAux, hlt, if_false, List.mem_append, List.mem_singleton] at hd
      rcases hd with hd | hd
      · exact ih _ hdivle d hd
      · omega

theorem pyDigits_lt (n : Nat) : ∀ d ∈ pyDigits n, d < 10 :=
  digitsAux_lt n n (Nat.le_refl n)

theorem digitToChar_inj_lt :
    ∀ d₁ < 10, ∀ d₂ < 10, digitToChar d₁ = digitToChar d₂ → d₁ = d₂ := by
  decide

theorem map_digitToChar_inj :
    ∀ (l₁ l₂ : List Nat), (∀ d ∈ l₁, d < 10) → (∀ d ∈ l₂, d < 10) →
      l₁.map digitToChar = l₂.map digitToChar → l₁ = l₂ := by
  intro l₁
  induction l₁ with
  | nil =>
    intro l₂ _ _ h
    cases l₂ with
    | nil => rfl
    | cons b t => simp at h
  | cons a t ih =>
    intro l₂ h₁ h₂ h
    cases l₂ with
    | nil => simp at h
    | cons b t₂ =>
      simp only [List.map_cons, List.cons.injEq] at h
      have ha : a < 10 := h₁ a (List.mem_cons_self a t)
      have hb : b < 10 := h₂ b (List.mem_cons_self b t₂)
      have hab : a = b := digitToChar_inj_lt a ha b hb h.1
      have ht : t = t₂ := by
        refine ih t₂ (fun d hd => h₁ d (List.mem_cons_of_mem a hd))
          (fun d hd => h₂ d (List.mem_cons_of_mem b hd)) h.2
      rw [hab, ht]

theorem pyIntStr_injective : Function.Injective pyIntStr := by
  intro m n h
  have hdata : (pyDigits m).map digitToChar = (pyDigits n).map digitToChar := by
    have := congrArg String.data h
    simpa [pyIntStr] using this
  exact pyDigits_injective
    (map_digitToChar_inj _ _ (pyDigits_lt m) (pyDigits_lt n) hdata)

theorem string_append_left_cancel (s t u : String) (h : s ++ t = s ++ u) :
    t = u := by
  have hd : s.data ++ t.data = s.data ++ u.data := by
    have := congrArg String.data h
    simpa [String.data_append] using this
  exact String.ext (List.append_cancel_left hd)

/-! ## List helper lemmas -/

theorem filterMap_some_eq_map {β : Type} (g : Nat → β) (l : List Nat) :
    l.filterMap (fun p => some (g p)) = l.map g := by
  induction l with
  | nil => rfl
  | cons a t ih => simp [List.filterMap_cons, ih]

theorem filterMap_except {β : Type} (l : List Nat) (g : Nat → Option β)
    (h : Nat → β) (N : Nat)
    (H : ∀ p ∈ l, (p = N → g p = none) ∧ (¬ p = N → g p = some (h p))) :
    l.filterMap g = (l.filter (fun p => p ≠ N)).map h := by
  induction l with
  | nil => rfl
  | cons a t ih =>
    have Ha := H a (List.mem_cons_self a t)
    have iht := ih fun p hp => H p (List.mem_cons_of_mem a hp)
    by_cases haN : a = N
    · subst haN
      simp [List.filterMap_cons, Ha.1 rfl, List.filter_cons, iht]
    · simp [List.filterMap_cons, Ha.2 haN, List.filter_cons, haN, iht]

theorem insertionSort_range' (K : Nat) :
    List.insertionSort (· ≤ ·) (List.range' 1 K) = List.range' 1 K :=
  List.Sorted.insertionSort_eq
    ((List.pairwise_lt_range' 1 K).imp fun h => le_of_lt h)

/-! ## Deep-processor helper lemmas -/

theorem pageChunkF_eq_some {record : FileRecord} {vlm : Nat → Option String}
    {p : Nat} {c : ChunkSnapshot} (h : pageChunkF record vlm p = some c) :
    ∃ s, vlm p = some s ∧ s ≠ "" ∧ c = mkPdfPageChunk record.id p s := by
  unfold pageChunkF at h
  cases hv : vlm p with
  | none => rw [hv] at h; exact absurd h (by simp)
  | some s =>
    rw [hv] at h
    by_cases hs : s = ""
    · simp [hs] at h
    · simp only [ne_eq, hs, not_false_iff, if_true, Option.some.injEq] at h
      exact ⟨s, rfl, hs, h.symm⟩

theorem process_pdf_snd (record : FileRecord) (pages : List Nat)
    (vlm : Nat → Option String) :
    (process_pdf record true pages vlm).2 =
      (List.insertionSort (· ≤ ·) pages).filterMap (pageChunkF record vlm) := by
  unfold process_pdf pageChunkF
  by_cases h : pages.isEmpty
  · have : pages = [] := by simpa [List.isEmpty_iff] using h
    subst this
    simp [List.insertionSort]
  · simp [h]

theorem process_pdf_snd_parse_failed (record : FileRecord) (pages : List Nat)
    (vlm : Nat → Option String) :
    (process_pdf record false pages vlm).2 = [] := by
  simp [process_pdf]

/-- The page-`p` chunk id determines `p`. -/
theorem pdf_chunk_id_inj (rid : String) {p q : Nat}
    (h : rid ++ "::deep::page_" ++ pyIntStr p = rid ++ "::deep::page_" ++ pyIntStr q) :
    p = q := by
  rw [String.append_assoc, String.append_assoc] at h
  exact pyIntStr_injective
    (string_append_left_cancel _ _ _ (string_append_left_cancel _ _ _ h))

/-- With every page produced, the ordinal projection of the chunk pass is
`page - 1` pointwise. -/
theorem filterMap_ordinal_all (record : FileRecord) (vlm : Nat → Option String)
    (l : List Nat) (hall : ∀ p ∈ l, ∃ s, vlm p = some s ∧ s ≠ "") :
    l.filterMap (fun p => Option.map (fun c => c.ordinal) (pageChunkF record vlm p)) =
      l.map (fun p : Nat => (p : Int) - 1) := by
  induction l with
  | nil => rfl
  | cons a t ih =>
    obtain ⟨s, hvs, hse⟩ := hall a (List.mem_cons_self a t)
    have iht := ih fun p hp => hall p (List.mem_cons_of_mem a hp)
    have hfa : Option.map (fun c => c.ordinal) (pageChunkF record vlm a) =
        some ((a : Int) - 1) := by
      unfold pageChunkF
      rw [hvs]
      simp [hse, mkPdfPageChunk]
    simp [List.filterMap_cons, hfa, iht]

/-- A successful non-empty deep run: with a present, fast-complete,
deep-pending, eligible, on-disk file and a non-empty extracted chunk list,
`process` stores the chunks, writes the metadata summary and advances
`deep_stage` to 2. -/
theorem process_eq_run (st : Store) (r : FileRecord) (o : DeepOracle)
    (hfile : st.file = some r) (hfast : r.fast_stage = 2) (hdeep : r.deep_stage = 0)
    (helig : should_process_deep r = true) (hpath : r.path_exists = true)
    (hne : (extract_deep r o).2 ≠ []) :
    process st o =
      ⟨true,
       { file := some { r with
           meta_vector_chunks_deep :=
             some (((extract_deep r o).2.take
               ((extract_deep r o).2.filter fun c => ¬ pyStrip c.text = "").length).map (·.chunk_id)),
           meta_chunk_count_deep := some (extract_deep r o).2.length,
           meta_deep_processed := some true,
           deep_stage := 2, deep_text_at := some o.now, deep_embed_at := some o.now },
         deep_chunks := (extract_deep r o).2 },
       if ((extract_deep r o).2.take
             ((extract_deep r o).2.filter fun c => ¬ pyStrip c.text = "").length).isEmpty then []
       else if o.vector_store_fails then []
       else (((extract_deep r o).2.take
               ((extract_deep r o).2.filter fun c => ¬ pyStrip c.text = "").length).map (·.chunk_id))⟩ := by
  have h1 : ¬ r.fast_stage < 2 := by rw [hfast]; omega
  have h2 : ¬ r.deep_stage ≥ 2 := by rw [hdeep]; omega
  have h3 : ¬ r.deep_stage = -2 := by rw [hdeep]; omega
  have h5 : ¬ (extract_deep r o).2.isEmpty := by simp [List.isEmpty_iff, hne]
  unfold process
  rw [hfile]
  simp only [h1, h2, h3, helig, hpath, h5, if_false, if_true, not_true, not_false_iff,
    ite_false, ite_true, and_false, false_and, and_true, true_and, Bool.not_true,
    reduceIte, List.isEmpty_iff]
  split
  · next h => exact absurd h.2 (by simp [List.isEmpty_iff, hne])
  · split
    · next h => exact absurd (by simpa [List.isEmpty_iff] using h) hne
    · rfl

/-- The empty-extraction terminal of `process` (deep.py, lines 127-136):
`deep_stage` is set to 2 with both timestamps, the run succeeds, and the
store's chunk table is not touched. -/
theorem process_eq_nothing (st : Store) (r : FileRecord) (o : DeepOracle)
    (hfile : st.file = some r) (hfast : r.fast_stage = 2) (hdeep : r.deep_stage = 0)
    (helig : should_process_deep r = true) (hpath : r.path_exists = true)
    (htext : strFalsy (extract_deep r o).1 = true)
    (hchunks : (extract_deep r o).2 = []) :
    process st o =
      ⟨true,
       { st with file := some { r with
           deep_stage := 2, deep_text_at := some o.now, deep_embed_at := some o.now } },
       []⟩ := by
  have h1 : ¬ r.fast_stage < 2 := by rw [hfast]; omega
  have h2 : ¬ r.deep_stage ≥ 2 := by rw [hdeep]; omega
  have h3 : ¬ r.deep_stage = -2 := by rw [hdeep]; omega
  unfold process
  rw [hfile]
  simp only [h1, h2, h3, helig, hpath, if_false, if_true, not_true, not_false_iff,
    ite_false, ite_true, Bool.not_true, reduceIte]
  rw [if_pos ⟨by simp [htext], by simp [hchunks]⟩]

/-! ## Claim C5 -/

/-- C5: `DeepProcessor._should_process_deep` returns true exactly for images,
for PDF documents with a preview image or a positive page count, and for
presentations; in particular it returns false for `txt`/`md`/`csv` documents
and for audio and video files. -/
theorem c5_should_process_deep_characterization (r : FileRecord) :
    (should_process_deep r = true ↔
      (r.kind = "image" ∨
        (r.kind = "document" ∧ r.extension = "pdf" ∧
          (r.preview_image = true ∨ (r.page_count.getD 0) > 0)) ∨
        r.kind = "presentation")) ∧
    (r.kind = "document" → r.extension = "txt" ∨ r.extension = "md" ∨ r.extension = "csv" →
      should_process_deep r = false) ∧
    (r.kind = "audio" ∨ r.kind = "video" →
      should_process_deep r = false) := by
  unfold should_process_deep
  refine ⟨?_, ?_, ?_⟩
  · split
    · simp_all
    · split
      · split
        · simp_all
        · split
          · simp_all
          · simp_all
      · split
        · simp_all
        · simp_all
  · intro hk he
    split
    · simp_all
    · split
      · rcases he with he | he | he <;> simp_all
      · split
        · simp_all
        · rfl
  · intro hk
    rcases hk with hk | hk <;>
    · split
      · simp_all
      · split
        · simp_all
        · split
          · simp_all
          · rfl

/-- C5 witness: a PDF document record with `page_count = 3` is eligible; the
characterization applied at that record evaluates as expected. -/
theorem c5_should_process_deep_witness :
    should_process_deep
      { id := "f1", kind := "document", extension := "pdf",
        page_count := some 3 : FileRecord } = true := by
  have h := c5_should_process_deep_characterization
    { id := "f1", kind := "document", extension := "pdf",
      page_count := some 3 : FileRecord }
  exact h.1.mpr (Or.inr (Or.inl (by refine ⟨rfl, rfl, Or.inr ?_⟩; decide)))

/-! ## Claim C2 -/

/-- C2 counterexample: a successful deep-processing run of a 2-page PDF whose
page-1 VLM call raises stores a single chunk with ordinal 1, so the stored
ordinals are not the dense range `0..n-1` claimed. -/
theorem c2_dense_ordinals_counterexample :
    (process c2x_store c2x_oracle).success = true ∧
    ((process c2x_store c2x_oracle).store.file.map (fun f => f.deep_stage)) = some 2 ∧
    ((process c2x_store c2x_oracle).store.deep_chunks.map (fun c => c.ordinal)) = [1] ∧
    ¬ ((process c2x_store c2x_oracle).store.deep_chunks.map (fun c => c.ordinal) =
        (List.range (process c2x_store c2x_oracle).store.deep_chunks.length).map
          Int.ofNat) := by
  decide

/-- C2 (amended): within one `(file_id, "deep")` pair the chunk ids produced
by `_process_pdf` are pairwise distinct and the ordinals are pairwise
distinct, each equal to `page_number - 1` for a page with non-empty VLM
output; the ordinals form the dense range `0..K-1` when every page of
`1..K` produces non-empty output, but a failed or empty page leaves a gap
rather than re-packing the range. -/
theorem c2_chunk_ids_ordinals_amended (record : FileRecord) (parse_ok : Bool)
    (pages : List Nat) (vlm : Nat → Option String) (hnd : pages.Nodup) :
    ((process_pdf record parse_ok pages vlm).2.map (fun c => c.chunk_id)).Nodup ∧
    ((process_pdf record parse_ok pages vlm).2.map (fun c => c.ordinal)).Nodup ∧
    (∀ c ∈ (process_pdf record parse_ok pages vlm).2,
      ∃ p ∈ pages, ∃ s, vlm p = some s ∧ s ≠ "" ∧
        c.meta_page_number = some p ∧ c.ordinal = (p : Int) - 1) ∧
    (∀ K, parse_ok = true → pages = List.range' 1 K →
      (∀ p ∈ pages, ∃ s, vlm p = some s ∧ s ≠ "") →
      (process_pdf record parse_ok pages vlm).2.map (fun c => c.ordinal) =
        (List.range K).map Int.ofNat) := by
  cases parse_ok with
  | false =>
    simp only [process_pdf_snd_parse_failed]
    refine ⟨by simp, by simp, by simp, ?_⟩
    intro K hK
    exact absurd hK (by simp)
  | true =>
    have hLnd : (List.insertionSort (· ≤ ·) pages).Nodup :=
      (List.perm_insertionSort (· ≤ ·) pages).nodup_iff.mpr hnd
    refine ⟨?_, ?_, ?_, ?_⟩
    · rw [process_pdf_snd, List.map_filterMap]
      refine List.Nodup.filterMap ?_ hLnd
      intro a a' b hb hb'
      rw [Option.mem_def, Option.map_eq_some'] at hb hb'
      obtain ⟨c, hc, hcb⟩ := hb
      obtain ⟨c', hc', hcb'⟩ := hb'
      obtain ⟨s, _, _, rfl⟩ := pageChunkF_eq_some hc
      obtain ⟨s', _, _, rfl⟩ := pageChunkF_eq_some hc'
      have hid : (mkPdfPageChunk record.id a s).chunk_id =
          (mkPdfPageChunk record.id a' s').chunk_id := hcb.trans hcb'.symm
      exact pdf_chunk_id_inj record.id (by simpa [mkPdfPageChunk] using hid)
    · rw [process_pdf_snd, List.map_filterMap]
      refine List.Nodup.filterMap ?_ hLnd
      intro a a' b hb hb'
      rw [Option.mem_def, Option.map_eq_some'] at hb hb'
      obtain ⟨c, hc, hcb⟩ := hb
      obtain ⟨c', hc', hcb'⟩ := hb'
      obtain ⟨s, _, _, rfl⟩ := pageChunkF_eq_some hc
      obtain ⟨s', _, _, rfl⟩ := pageChunkF_eq_some hc'
      have hor : (mkPdfPageChunk record.id a s).ordinal =
          (mkPdfPageChunk record.id a' s').ordinal := hcb.trans hcb'.symm
      have : (a : Int) - 1 = (a' : Int) - 1 := by simpa [mkPdfPageChunk] using hor
      omega
    · intro c hc
      rw [process_pdf_snd] at hc
      obtain ⟨p, hpL, hf⟩ := List.mem_filterMap.mp hc
      have hp : p ∈ pages := (List.perm_insertionSort (· ≤ ·) pages).mem_iff.mp hpL
      obtain ⟨s, hvs, hse, rfl⟩ := pageChunkF_eq_some hf
      exact ⟨p, hp, s, hvs, hse, rfl, rfl⟩
    · intro K _ hpr hall
      subst hpr
      rw [process_pdf_snd, insertionSort_range', List.map_filterMap,
        filterMap_ordinal_all record vlm _ hall, List.range'_eq_map_range,
        List.map_map]
      refine List.map_congr_left ?_
      intro i _
      simp only [Function.comp_apply, Int.ofNat_eq_coe]
      push_cast
      ring

/-- C2 witness: the amended statement applied to a concrete 2-page PDF with
both pages described; the ordinals are exactly `[0, 1]`. -/
theorem c2_chunk_ids_ordinals_amended_witness :
    ((process_pdf c2w_record true [1, 2] c2w_vlm).2.map (fun c => c.chunk_id)).Nodup ∧
    ((process_pdf c2w_record true [1, 2] c2w_vlm).2.map (fun c => c.ordinal)).Nodup ∧
    (process_pdf c2w_record true [1, 2] c2w_vlm).2.map (fun c => c.ordinal) = [0, 1] := by
  have h := c2_chunk_ids_ordinals_amended c2w_record true [1, 2] c2w_vlm (by decide)
  refine ⟨h.1, h.2.1, ?_⟩
  have h3 := h.2.2.2 2 rfl (by decide)
    (by intro p hp; exact ⟨"pg", rfl, by decide⟩)
  exact h3.trans (by decide)

/-! ## Claim C4 -/

/-- C4: if the VLM raises on exactly one page `N` of a `K`-page PDF and
yields non-empty output on every other page, `process` succeeds, `deep_stage`
advances to 2, and one deep chunk is stored per page of `1..K` except `N`. -/
theorem c4_page_failure_continues (st : Store) (r : FileRecord) (o : DeepOracle)
    (K N : Nat)
    (hfile : st.file = some r) (hkind : r.kind = "document")
    (hext : r.extension = "pdf") (hfast : r.fast_stage = 2)
    (hdeep : r.deep_stage = 0) (helig : should_process_deep r = true)
    (hpath : r.path_exists = true) (hparse : o.pdf_parse_ok = true)
    (hpages : o.pdf_pages = List.range' 1 K) (hK : 2 ≤ K)
    (hN : N ∈ List.range' 1 K) (hfail : o.vlm N = none)
    (hok : ∀ p ∈ List.range' 1 K, ¬ p = N → ∃ s, o.vlm p = some s ∧ s ≠ "") :
    (process st o).success = true ∧
    ((process st o).store.file.map (fun f => f.deep_stage)) = some 2 ∧
    ((process st o).store.deep_chunks.map (fun c => c.meta_page_number)) =
      ((List.range' 1 K).filter (fun p => p ≠ N)).map (fun p => some p) := by
  have hex : (extract_deep r o).2 =
      (List.range' 1 K).filterMap (pageChunkF r o.vlm) := by
    unfold extract_deep
    rw [if_neg (by simp [hkind]), if_pos ⟨hkind, hext⟩, hparse, hpages,
      process_pdf_snd, insertionSort_range']
  have hq : ∃ q ∈ List.range' 1 K, ¬ q = N := by
    rcases List.mem_range'_1.mp hN with ⟨hN1, hN2⟩
    by_cases hone : N = 1
    · exact ⟨2, List.mem_range'_1.mpr (by omega), by omega⟩
    · exact ⟨1, List.mem_range'_1.mpr (by omega), by omega⟩
  obtain ⟨q, hqm, hqN⟩ := hq
  obtain ⟨s, hvs, hse⟩ := hok q hqm hqN
  have hqc : pageChunkF r o.vlm q = some (mkPdfPageChunk r.id q s) := by
    unfold pageChunkF
    rw [hvs]
    simp [hse]
  have hne : (extract_deep r o).2 ≠ [] := by
    rw [hex]
    exact List.ne_nil_of_mem (List.mem_filterMap.mpr ⟨q, hqm, hqc⟩)
  rw [process_eq_run st r o hfile hfast hdeep helig hpath hne]
  refine ⟨rfl, by simp, ?_⟩
  show (extract_deep r o).2.map (fun c => c.meta_page_number) =
    ((List.range' 1 K).filter (fun p => p ≠ N)).map (fun p => some p)
  rw [hex, List.map_filterMap]
  refine filterMap_except _ _ _ N ?_
  intro p hp
  constructor
  · intro hpN
    subst hpN
    unfold pageChunkF
    rw [hfail]
    rfl
  · intro hpN
    obtain ⟨s', hvs', hse'⟩ := hok p hp hpN
    unfold pageChunkF
    rw [hvs']
    simp [hse', mkPdfPageChunk]

/-- C4 witness: a 3-page PDF whose page-2 VLM call raises stores deep chunks
for pages 1 and 3 and still succeeds with `deep_stage = 2`. -/
theorem c4_page_failure_continues_witness :
    (process c4_store c4_oracle).success = true ∧
    ((process c4_store c4_oracle).store.file.map (fun f => f.deep_stage)) = some 2 ∧
    ((process c4_store c4_oracle).store.deep_chunks.map (fun c => c.meta_page_number)) =
      ((List.range' 1 3).filter (fun p => p ≠ 2)).map (fun p => some p) :=
  c4_page_failure_continues c4_store c4_file c4_oracle 3 2 rfl rfl rfl rfl rfl
    (by decide) rfl rfl (by decide) (by omega) (by decide) (by decide)
    (by
      intro p hp hpn
      exact ⟨"ok", by simp [c4_oracle, hpn], by decide⟩)

/-! ## Claim C6 -/

/-- C6 counterexample: an eligible PDF whose deep extraction yields nothing
is marked `deep_stage = 2` and succeeds, but no empty chunk set is stored:
a stale deep chunk already in the store survives the run, so the live
deep-chunk set is not empty. -/
theorem c6_empty_extraction_counterexample :
    (process c6x_store c6x_oracle).success = true ∧
    ((process c6x_store c6x_oracle).store.file.map (fun f => f.deep_stage)) = some 2 ∧
    ¬ ((process c6x_store c6x_oracle).store.deep_chunks = []) := by
  decide

/-- C6 (amended): when deep extraction yields no text and no chunks,
`process` sets `deep_stage = 2` with `deep_text_at` and `deep_embed_at` and
returns success, without calling `replace_chunks`: the stored deep-chunk set
is left exactly as it was (hence empty whenever it was empty before the
run). -/
theorem c6_empty_extraction_amended (st : Store) (r : FileRecord) (o : DeepOracle)
    (hfile : st.file = some r) (hfast : r.fast_stage = 2) (hdeep : r.deep_stage = 0)
    (helig : should_process_deep r = true) (hpath : r.path_exists = true)
    (htext : strFalsy (extract_deep r o).1 = true)
    (hchunks : (extract_deep r o).2 = []) :
    (process st o).success = true ∧
    ((process st o).store.file.map (fun f => f.deep_stage)) = some 2 ∧
    ((process st o).store.file.map (fun f => f.deep_text_at)) = some (some o.now) ∧
    ((process st o).store.file.map (fun f => f.deep_embed_at)) = some (some o.now) ∧
    (process st o).store.deep_chunks = st.deep_chunks := by
  rw [process_eq_nothing st r o hfile hfast hdeep helig hpath htext hchunks]
  exact ⟨rfl, by simp, by simp, by simp, rfl⟩

/-- C6 witness: the amended statement at a concrete eligible PDF with no page
images and no previously stored deep chunks: the run succeeds and the stored
deep-chunk set stays empty. -/
theorem c6_empty_extraction_amended_witness :
    (process c6w_store c6w_oracle).success = true ∧
    ((process c6w_store c6w_oracle).store.file.map (fun f => f.deep_stage)) = some 2 ∧
    ((process c6w_store c6w_oracle).store.file.map (fun f => f.deep_text_at)) = some (some 4) ∧
    ((process c6w_store c6w_oracle).store.file.map (fun f => f.deep_embed_at)) = some (some 4) ∧
    (process c6w_store c6w_oracle).store.deep_chunks = c6w_store.deep_chunks :=
  c6_empty_extraction_amended c6w_store c6w_file c6w_oracle rfl rfl rfl
    (by decide) rfl (by decide) (by decide)

/-! ## Claim C10 -/

/-- C10: if the vector-store upsert/flush raises while `process` stores deep
vectors, the exception is swallowed: the run still succeeds, `deep_stage`
advances to 2 with `deep_embed_at` set, the deep chunks stay stored in the
relational store, and nothing is durably upserted to the vector store. -/
theorem c10_vector_upsert_failure_tolerated (st : Store) (r : FileRecord)
    (o : DeepOracle)
    (hfile : st.file = some r) (hfast : r.fast_stage = 2) (hdeep : r.deep_stage = 0)
    (helig : should_process_deep r = true) (hpath : r.path_exists = true)
    (hne : (extract_deep r o).2 ≠ []) (hvf : o.vector_store_fails = true) :
    (process st o).success = true ∧
    ((process st o).store.file.map (fun f => f.deep_stage)) = some 2 ∧
    ((process st o).store.file.map (fun f => f.deep_embed_at)) = some (some o.now) ∧
    (process st o).store.deep_chunks = (extract_deep r o).2 ∧
    (process st o).upserted_doc_ids = [] := by
  rw [process_eq_run st r o hfile hfast hdeep helig hpath hne]
  refine ⟨rfl, by simp, by simp, rfl, ?_⟩
  simp [hvf]

/-- C10 witness: a concrete 1-page PDF processed while the vector store
raises still ends with `deep_stage = 2`, its chunk stored, and no vector
documents upserted. -/
theorem c10_vector_upsert_failure_tolerated_witness :
    (process c10w_store c10w_oracle).success = true ∧
    ((process c10w_store c10w_oracle).store.file.map (fun f => f.deep_stage)) = some 2 ∧
    ((process c10w_store c10w_oracle).store.file.map (fun f => f.deep_embed_at)) =
      some (some 11) ∧
    (process c10w_store c10w_oracle).store.deep_chunks =
      (extract_deep c10w_file c10w_oracle).2 ∧
    (process c10w_store c10w_oracle).upserted_doc_ids = [] :=
  c10_vector_upsert_failure_tolerated c10w_store c10w_file c10w_oracle rfl rfl rfl
    (by decide) rfl (by decide) rfl

/-! ## Claim C1 -/

/-- C1 counterexample: a non-empty filter specification resolving to an empty
allowlist is not treated as "no results".  With no `@mention` and a
`folder_ids` list expanding to no files, the code leaves retrieval
unrestricted (any hit is permitted) although the spec's effective allowlist
is empty; and with an empty `@mention` resolution plus a non-empty folder
expansion, the code uses the folder set instead of the empty intersection. -/
theorem c1_scope_isolation_counterexample :
    resolve_target_file_ids none (some []) = none ∧
    hit_permitted (resolve_target_file_ids none (some [])) "x" = true ∧
    spec_permits none (some []) "x" = false ∧
    hit_permitted (resolve_target_file_ids (some []) (some ["g1"])) "g1" = true ∧
    spec_permits (some []) (some ["g1"]) "g1" = false := by
  decide

/-- C1 (amended): the allowlist actually applied is `F ∩ G` when both
sources resolve non-empty; `F` alone when mentions resolve non-empty and the
folder source is absent or expands empty; `G` alone when folders expand
non-empty and mentions are absent or resolve empty; only an `@mention`
resolution to the empty set (with no usable folder expansion) yields "no
results"; no filter at all, or an empty folder expansion with no mentions,
leaves retrieval unrestricted. -/
theorem c1_scope_isolation_amended (mF fG : Option (List String)) (fid : String) :
    hit_permitted (resolve_target_file_ids mF fG) fid =
      hit_permitted (amended_allowlist mF fG) fid ∧
    (∀ f g, mF = some f → ¬ f = [] → fG = some g → ¬ g = [] →
      (hit_permitted (resolve_target_file_ids mF fG) fid = true ↔
        fid ∈ f ∧ fid ∈ g)) ∧
    (∀ f, mF = some f → ¬ f = [] → (fG = none ∨ fG = some []) →
      (hit_permitted (resolve_target_file_ids mF fG) fid = true ↔ fid ∈ f)) ∧
    (∀ g, (mF = none ∨ mF = some []) → fG = some g → ¬ g = [] →
      (hit_permitted (resolve_target_file_ids mF fG) fid = true ↔ fid ∈ g)) ∧
    (mF = some [] → (fG = none ∨ fG = some []) →
      hit_permitted (resolve_target_file_ids mF fG) fid = false) ∧
    (mF = none → (fG = none ∨ fG = some []) →
      hit_permitted (resolve_target_file_ids mF fG) fid = true) := by
  refine ⟨?_, ?_, ?_, ?_, ?_, ?_⟩
  · cases mF with
    | none =>
      cases fG with
      | none => rfl
      | some g =>
        cases g with
        | nil => rfl
        | cons a t => simp [resolve_target_file_ids, amended_allowlist]
    | some f =>
      cases fG with
      | none => rfl
      | some g =>
        cases g with
        | nil => simp [resolve_target_file_ids, amended_allowlist]
        | cons a t =>
          cases f with
          | nil => simp [resolve_target_file_ids, amended_allowlist]
          | cons b u => simp [resolve_target_file_ids, amended_allowlist]
  · intro f g hm hf hg hgne
    subst hm
    subst hg
    simp [resolve_target_file_ids, hit_permitted, List.isEmpty_iff, hf, hgne,
      List.mem_filter, and_comm]
  · intro f hm hf hg
    subst hm
    rcases hg with hg | hg <;>
    · subst hg
      simp [resolve_target_file_ids, hit_permitted, List.isEmpty_iff, hf]
  · intro g hm hg hgne
    subst hg
    rcases hm with hm | hm <;>
    · subst hm
      simp [resolve_target_file_ids, hit_permitted, List.isEmpty_iff, hgne]
  · intro hm hg
    subst hm
    rcases hg with hg | hg <;>
    · subst hg
      simp [resolve_target_file_ids, hit_permitted]
  · intro hm hg
    subst hm
    rcases hg with hg | hg <;>
    · subst hg
      simp [resolve_target_file_ids, hit_permitted]

/-- C1 amended witness: with mentions resolving to `["a", "b"]` and folders
to `["b", "c"]`, a hit on `"b"` is permitted and lies in both sets. -/
theorem c1_scope_isolation_amended_witness :
    hit_permitted (resolve_target_file_ids (some ["a", "b"]) (some ["b", "c"])) "b" = true ∧
    "b" ∈ ["a", "b"] ∧ "b" ∈ (["b", "c"] : List String) := by
  have h := c1_scope_isolation_amended (some ["a", "b"]) (some ["b", "c"]) "b"
  exact ⟨(h.2.1 ["a", "b"] ["b", "c"] rfl (by decide) rfl (by decide)).mpr
    ⟨by decide, by decide⟩, by decide, by decide⟩

/-! ## Claim C3 -/

/-- C3: the claim describes the intended page concatenation; the code's
line-181 join instead renders each `enumerate` tuple and the whole
`page_texts` list.  At the 2-page input with page texts `"a"` and `"b"` the
code's output differs from the claimed `--PAGE_N--`-headed concatenation. -/
theorem c3_page_concat_bug :
    page_text_final ["a", "b"] =
      "--PAGE_(1, 'a')--\n['a', 'b']--PAGE_(2, 'b')--\n['a', 'b']" ∧
    intended_page_text ["a", "b"] = "--PAGE_1--\na\n\n--PAGE_2--\nb" ∧
    ¬ page_text_final ["a", "b"] = intended_page_text ["a", "b"] := by
  decide

/-! ## Claim C7 -/

/-- C7: for a `.pdf` suffix, `ContentRouter.parse` uses the vision PDF
parser when `indexing_mode` is `"deep"` or `"fine"` or the `pdf_mode`
setting is `"vision"`; otherwise it invokes the text PDF parser and returns
the vision parser's result exactly when the text output is empty after
stripping whitespace; for every other suffix it delegates to the first
matching parser of its ordered list, falling back to the general parser. -/
theorem c7_content_router_characterization
    (suffix indexing_mode pdf_mode : String)
    (tOut vOut : ContentRouter.ParsedContent)
    (parsers : List ContentRouter.ParserSpec)
    (gOut : ContentRouter.ParsedContent) :
    (suffix = ".pdf" →
      ((indexing_mode = "deep" ∨ indexing_mode = "fine" ∨ pdf_mode = "vision") →
        ContentRouter.parse suffix indexing_mode pdf_mode tOut vOut parsers gOut =
          vOut) ∧
      (¬ indexing_mode = "deep" → ¬ indexing_mode = "fine" → ¬ pdf_mode = "vision" →
        ContentRouter.parse suffix indexing_mode pdf_mode tOut vOut parsers gOut =
          (if pyStrip tOut.text = "" then vOut else tOut))) ∧
    (¬ suffix = ".pdf" →
      ContentRouter.parse suffix indexing_mode pdf_mode tOut vOut parsers gOut =
        (match parsers.find? (fun p => p.extensions.contains suffix) with
         | some parser => parser.output
         | none => gOut)) := by
  unfold ContentRouter.parse ContentRouter.selectParser
  refine ⟨fun hs => ⟨fun hm => ?_, fun h1 h2 h3 => ?_⟩, fun hs => ?_⟩
  · rw [if_pos hs, if_pos (by tauto)]
  · rw [if_pos hs, if_neg (by tauto)]
  · rw [if_neg hs]

/-- C7 witness: a PDF routed in fast mode with `pdf_mode = "text"` whose text
parser returns empty text falls back to the vision parser's output. -/
theorem c7_content_router_witness :
    ContentRouter.parse ".pdf" "fast" "text" ⟨""⟩ ⟨"vision out"⟩ [] ⟨"general"⟩ =
      (⟨"vision out"⟩ : ContentRouter.ParsedContent) := by
  have h := (c7_content_router_characterization ".pdf" "fast" "text" ⟨""⟩
    ⟨"vision out"⟩ [] ⟨"general"⟩).1 rfl
  have h2 := h.2 (by decide) (by decide) (by decide)
  exact h2.trans (by decide)

/-! ## Claim C8 -/

/-- C8: `check_service` returns `unknown`/"URL not configured" on a missing
URL without touching the cache; within the 10-second TTL a cached entry
under key `name:url` is returned unchanged; otherwise it probes
`GET <url>/health` (falling back to `GET <url>` on a 404), classifies
`200..499` as online with a latency, `5xx` as offline with `HTTP <code>` and
a transport error as offline with the error text, and stores the result in
the cache under `name:url`; a repeated call within the TTL then returns the
just-stored status. -/
theorem c8_check_service_characterization :
    (∀ name uc cache now st probe,
      check_service name none uc cache now st probe =
        (⟨name, "unknown", some "URL not configured", none⟩, cache)) ∧
    (∀ name u cache now st probe status t,
      cache.find? (fun e => e.1 = name ++ ":" ++ u) =
        some (name ++ ":" ++ u, status, t) →
      now - t < 10 →
      check_service name (some u) true cache now st probe = (status, cache)) ∧
    (∀ name u cache now st probe,
      cache.find? (fun e => e.1 = name ++ ":" ++ u) = none →
      check_service name (some u) true cache now st probe =
        (probe_and_classify name probe (rstripSlashes u) now st,
         (name ++ ":" ++ u,
          probe_and_classify name probe (rstripSlashes u) now st, st) :: cache)) ∧
    (∀ name probe base now st e,
      probe (base ++ "/health") = ProbeOutcome.transport_error e →
      probe_and_classify name probe base now st =
        ⟨name, "offline", some e, none⟩) ∧
    (∀ name probe base now st c,
      probe (base ++ "/health") = ProbeOutcome.response c →
      ¬ c = 404 → 200 ≤ c → c < 500 →
      probe_and_classify name probe base now st =
        ⟨name, "online", none, some ((st - now) * 1000)⟩) ∧
    (∀ name probe base now st c,
      probe (base ++ "/health") = ProbeOutcome.response c →
      ¬ c = 404 → ¬ (200 ≤ c ∧ c < 500) →
      probe_and_classify name probe base now st =
        ⟨name, "offline", some ("HTTP " ++ pyIntStr c), none⟩) ∧
    (∀ name probe base now st c2,
      probe (base ++ "/health") = ProbeOutcome.response 404 →
      probe base = ProbeOutcome.response c2 →
      probe_and_classify name probe base now st =
        (if 200 ≤ c2 ∧ c2 < 500 then
          (⟨name, "online", none, some ((st - now) * 1000)⟩ : ServiceStatus)
         else ⟨name, "offline", some ("HTTP " ++ pyIntStr c2), none⟩)) ∧
    (∀ name probe base now st e,
      probe (base ++ "/health") = ProbeOutcome.response 404 →
      probe base = ProbeOutcome.transport_error e →
      probe_and_classify name probe base now st =
        ⟨name, "offline", some e, none⟩) ∧
    (∀ name u cache now st probe now2 st2 probe2,
      cache.find? (fun e => e.1 = name ++ ":" ++ u) = none →
      now2 - st < 10 →
      (check_service name (some u) true
          (check_service name (some u) true cache now st probe).2
          now2 st2 probe2).1 =
        (check_service name (some u) true cache now st probe).1) := by
  refine ⟨fun name uc cache now st probe => rfl, ?_, ?_, ?_, ?_, ?_, ?_, ?_, ?_⟩
  · intro name u cache now st probe status t hfind hlt
    simp [check_service, hfind, hlt]
  · intro name u cache now st probe hfind
    simp [check_service, hfind]
  · intro name probe base now st e hp
    simp [probe_and_classify, hp]
  · intro name probe base now st c hp h404 h200 h500
    simp [probe_and_classify, hp, h404, h200, h500]
  · intro name probe base now st c hp h404 hbad
    simp [probe_and_classify, hp, h404, hbad]
  · intro name probe base now st c2 hp hr
    simp [probe_and_classify, hp, hr]
  · intro name probe base now st e hp hr
    simp [probe_and_classify, hp, hr]
  · intro name u cache now st probe now2 st2 probe2 hfind hlt
    simp [check_service, hfind, hlt, List.find?_cons_of_pos]

/-- C8 witness: a cached online status under key `Embedding:http://e`,
5 seconds old, is returned unchanged by a repeated call, even though the
probe would now fail. -/
theorem c8_check_service_witness :
    check_service "Embedding" (some "http://e") true
      [("Embedding:http://e", ⟨"Embedding", "online", none, none⟩, 0)] 5 6
      (fun _ => ProbeOutcome.transport_error "down") =
      (⟨"Embedding", "online", none, none⟩,
       [("Embedding:http://e", ⟨"Embedding", "online", none, none⟩, 0)]) := by
  exact c8_check_service_characterization.2.1 "Embedding" "http://e"
    [("Embedding:http://e", ⟨"Embedding", "online", none, none⟩, 0)] 5 6
    (fun _ => ProbeOutcome.transport_error "down")
    ⟨"Embedding", "online", none, none⟩ 0 (by decide) (by decide)

/-! ## Claim C9 -/

/-- C9: a PATCH with any subset of the recognized settings keys followed by a
GET returns exactly the posted values for the included keys, and every
recognized key not included keeps its prior value. -/
theorem c9_patch_get_roundtrip (s : Settings) (u : SettingsUpdate) :
    (∀ v : Int, u.vision_max_pixels = some v →
      (get_settings (update_settings s u)).vision_max_pixels = v) ∧
    (u.vision_max_pixels = none →
      (get_settings (update_settings s u)).vision_max_pixels = s.vision_max_pixels) ∧
    (∀ v : Int, u.video_max_pixels = some v →
      (get_settings (update_settings s u)).video_max_pixels = v) ∧
    (u.video_max_pixels = none →
      (get_settings (update_settings s u)).video_max_pixels = s.video_max_pixels) ∧
    (∀ v : Int, u.embed_batch_size = some v →
      (get_settings (update_settings s u)).embed_batch_size = v) ∧
    (u.embed_batch_size = none →
      (get_settings (update_settings s u)).embed_batch_size = s.embed_batch_size) ∧
    (∀ v : Int, u.embed_batch_delay_ms = some v →
      (get_settings (update_settings s u)).embed_batch_delay_ms = v) ∧
    (u.embed_batch_delay_ms = none →
      (get_settings (update_settings s u)).embed_batch_delay_ms = s.embed_batch_delay_ms) ∧
    (∀ v : Int, u.vision_batch_delay_ms = some v →
      (get_settings (update_settings s u)).vision_batch_delay_ms = v) ∧
    (u.vision_batch_delay_ms = none →
      (get_settings (update_settings s u)).vision_batch_delay_ms = s.vision_batch_delay_ms) ∧
    (∀ v : Int, u.search_result_limit = some v →
      (get_settings (update_settings s u)).search_result_limit = v) ∧
    (u.search_result_limit = none →
      (get_settings (update_settings s u)).search_result_limit = s.search_result_limit) ∧
    (∀ v : Int, u.qa_context_limit = some v →
      (get_settings (update_settings s u)).qa_context_limit = v) ∧
    (u.qa_context_limit = none →
      (get_settings (update_settings s u)).qa_context_limit = s.qa_context_limit) ∧
    (∀ v : Int, u.max_snippet_length = some v →
      (get_settings (update_settings s u)).max_snippet_length = v) ∧
    (u.max_snippet_length = none →
      (get_settings (update_settings s u)).max_snippet_length = s.max_snippet_length) ∧
    (∀ v : Int, u.summary_max_tokens = some v →
      (get_settings (update_settings s u)).summary_max_tokens = v) ∧
    (u.summary_max_tokens = none →
      (get_settings (update_settings s u)).summary_max_tokens = s.summary_max_tokens) ∧
    (∀ v : Bool, u.pdf_one_chunk_per_page = some v →
      (get_settings (update_settings s u)).pdf_one_chunk_per_page = v) ∧
    (u.pdf_one_chunk_per_page = none →
      (get_settings (update_settings s u)).pdf_one_chunk_per_page = s.pdf_one_chunk_per_page) ∧
    (∀ v : Int, u.rag_chunk_size = some v →
      (get_settings (update_settings s u)).rag_chunk_size = v) ∧
    (u.rag_chunk_size = none →
      (get_settings (update_settings s u)).rag_chunk_size = s.rag_chunk_size) ∧
    (∀ v : Int, u.rag_chunk_overlap = some v →
      (get_settings (update_settings s u)).rag_chunk_overlap = v) ∧
    (u.rag_chunk_overlap = none →
      (get_settings (update_settings s u)).rag_chunk_overlap = s.rag_chunk_overlap) ∧
    (∀ v : String, u.default_indexing_mode = some v →
      (get_settings (update_settings s u)).default_indexing_mode = v) ∧
    (u.default_indexing_mode = none →
      (get_settings (update_settings s u)).default_indexing_mode = s.default_indexing_mode) := by
  refine ⟨?_, ?_, ?_, ?_, ?_, ?_, ?_, ?_, ?_, ?_, ?_, ?_, ?_, ?_, ?_, ?_, ?_, ?_, ?_, ?_, ?_, ?_, ?_, ?_, ?_, ?_⟩
  all_goals intros
  all_goals simp_all [get_settings, update_settings]

/-- C9 witness: PATCHing `embed_batch_size = 2` and
`default_indexing_mode = "deep"` returns those values from the following
GET, while an untouched key keeps its prior value. -/
theorem c9_patch_get_roundtrip_witness :
    (get_settings (update_settings c9w_settings c9w_update)).embed_batch_size = 2 ∧
    (get_settings (update_settings c9w_settings c9w_update)).default_indexing_mode = "deep" ∧
    (get_settings (update_settings c9w_settings c9w_update)).qa_context_limit =
      c9w_settings.qa_context_limit := by
  have h := c9_patch_get_roundtrip c9w_settings c9w_update
  exact ⟨h.2.2.2.2.1 2 rfl, h.2.2.2.2.2.2.2.2.2.2.2.2.2.2.2.2.2.2.2.2.2.2.2.2.1 "deep" rfl, h.2.2.2.2.2.2.2.2.2.2.2.2.2.1 rfl⟩
